import Mathlib

/-!
Verification of the `DrawPopup` map-overlay component
(`src/unnamed/part_000`, the variant with `_setMap`/`_removeMap`/`_remove`)
and of the table-storage helpers (`tableStorageGetter`/`tableStorageSetter`).

The JavaScript is embedded shallowly:
* pixel quantities (positions, sizes, viewport dimensions, scroll offsets)
  are modelled as `Int` — every operation the code performs on them is a
  sum, difference or order comparison, which `Int` models exactly;
* DOM references are modelled by booleans recording whether the reference
  is non-null; a map surface is identified by a `Nat` id;
* a JavaScript statement that can throw is modelled in `Except JsErr`;
* each state-mutating method returns, besides the new state, the list of
  externally observable actions it performed, in execution order.
-/

namespace DrawPopup

/-- The DOM quantities `_update`'s animation-frame callback reads:
`this._mbPopup._pos` (popup pixel position inside the map container),
`this._mbPopup._container.offsetWidth/offsetHeight`,
`this.props.map._container.getBoundingClientRect()` (x, y),
`document.documentElement.clientWidth/clientHeight` and
`window.scrollX/scrollY`. -/
structure PageEnv where
  posX : Int
  posY : Int
  width : Int
  height : Int
  boundsX : Int
  boundsY : Int
  clientWidth : Int
  clientHeight : Int
  scrollX : Int
  scrollY : Int
deriving DecidableEq, Repr

/-- The `anchorComponents` array built by `_calculateAnchorPosition`:
a vertical tag (`"bottom"`/`"top"`) pushed first, then a horizontal tag
(`"right"`/`"left"`), each guarded by the source's two comparisons. -/
def anchorComponents (g : PageEnv) : List String :=
  (if g.boundsY + g.posY + g.height > g.clientHeight ∧
      g.boundsY + g.posY - g.height > 0 then
    ["bottom"]
  else if g.boundsY + g.posY + g.height < g.clientHeight ∧
      g.boundsY + g.posY - g.height < 0 then
    ["top"]
  else []) ++
  (if g.boundsX + g.posX + g.width > g.clientWidth ∧
      g.boundsX + g.posX - g.width > 0 then
    ["right"]
  else if g.boundsX + g.posX + g.width < g.clientWidth ∧
      g.boundsX + g.posX - g.width < 0 then
    ["left"]
  else [])

/-- `_calculateAnchorPosition`: the components joined by
`ANCHOR_DELIMITER = '-'` (`anchorComponents.join(ANCHOR_DELIMITER)`). -/
def calculateAnchorPosition (g : PageEnv) : String :=
  String.intercalate "-" (anchorComponents g)

/-- `_calculateOffset`: `[bounds.x + window.scrollX, bounds.y + window.scrollY]`. -/
def calculateOffset (g : PageEnv) : Int × Int :=
  (g.boundsX + g.scrollX, g.boundsY + g.scrollY)

/-- A JavaScript value accepted for the `location` prop, per the component's
`propTypes`: absent (`undefined`), `null`, an array of numbers, or an
`{lon, lat}` object. -/
inductive JsLoc where
  | undef : JsLoc
  | null : JsLoc
  | arr : List Int → JsLoc
  | obj : Int → Int → JsLoc
deriving DecidableEq, Repr

/-- An exception a synchronize cycle can raise. -/
inductive JsErr where
  /-- `TypeError`: array-destructuring a value that is not iterable. -/
  | typeError : JsErr
  /-- mapbox-gl `LngLat.convert`: "`LngLat` argument must be specified as …". -/
  | invalidLngLat : JsErr
deriving DecidableEq, Repr

/-- JavaScript `x || []` as applied to a `location` value: `undefined` and
`null` are falsy; every array (even `[]`) and every object is truthy. -/
def jsOrEmptyArray (l : JsLoc) : JsLoc :=
  match l with
  | JsLoc.undef => JsLoc.arr []
  | JsLoc.null => JsLoc.arr []
  | l => l

/-- JavaScript `const [a, b] = v`: reads the first two elements of an array
(missing elements are `undefined`, modelled `none`); a non-array object such
as `{lon, lat}` is not iterable, so the destructuring throws a `TypeError`. -/
def arrayDestructure2 : JsLoc → Except JsErr (Option Int × Option Int)
  | JsLoc.arr es => Except.ok (es[0]?, es[1]?)
  | _ => Except.error JsErr.typeError

/-- mapbox-gl's `LngLat.convert`, as `setLngLat` applies it: an array of
length 2 or 3 gives `(lng, lat)`; a non-array object reads its `lng`/`lon`
and `lat` fields (our modelled object form carries `lon` and `lat`);
anything else throws. -/
def lngLatConvert : JsLoc → Except JsErr (Int × Int)
  | JsLoc.arr es =>
    if es.length = 2 ∨ es.length = 3 then
      Except.ok ((es[0]?).getD 0, (es[1]?).getD 0)
    else Except.error JsErr.invalidLngLat
  | JsLoc.obj lon lat => Except.ok (lon, lat)
  | _ => Except.error JsErr.invalidLngLat

/-- The two event kinds the component subscribes on a map surface:
`'move'` (handler `this._update`) and `'remove'` (handler `this._removeMap`). -/
inductive EventKind where
  | move : EventKind
  | removeEv : EventKind
deriving DecidableEq, Repr

/-- An externally observable action of one of the component's methods. -/
inductive Act where
  /-- `map.on('move', this._update)` on surface `m`. -/
  | subscribeMove : Nat → Act
  /-- `map.on('remove', this._removeMap)` on surface `m`. -/
  | subscribeRemove : Nat → Act
  /-- `map.off('move', this._update)` on surface `m`. -/
  | unsubscribeMove : Nat → Act
  /-- `map.off('remove', this._removeMap)` on surface `m`. -/
  | unsubscribeRemove : Nat → Act
  /-- `this._mbPopup.setLngLat(location)`. -/
  | setLngLat : Act
  /-- the forced `this._mbPopup._update()` taken when `updated` is false. -/
  | forcedRefresh : Act
  /-- the assignment `this._mbPopup.options.anchor = this._calculateAnchorPosition()`. -/
  | calcAnchor : Act
  /-- the final `this._mbPopup._update()` closing the cycle. -/
  | finalRefresh : Act
  /-- `this.portalNode.parentNode.removeChild(this.portalNode)`. -/
  | removeChild : Act
deriving DecidableEq, Repr

/-- The state of the wrapped `mapboxgl.Popup` (`this._mbPopup`): which map
surface `_map` points at, whether `_container`/`_content` are non-null, the
coordinate last passed to `setLngLat` (`getLngLat()`; `none` = never set),
and the `anchor`/`offset` entries of `this._mbPopup.options`
(`anchorOpt = none` models `anchor: null`/unset). -/
structure MbPopup where
  map : Option Nat
  container : Bool
  content : Bool
  lngLat : Option (Int × Int)
  anchorOpt : Option String
  offsetOpt : Int × Int
deriving DecidableEq, Repr

/-- The caller-supplied `options` prop. `anchor` is `some a` when the caller's
options object carries an own `anchor` entry with value `a` (C9 considers such
a caller override); the three keys the component's `propTypes` declare are
carried along. -/
structure CallerOptions where
  anchor : Option String
  closeButton : Option Bool
  closeOnClick : Option Bool
  maxWidth : Option String
deriving DecidableEq, Repr

/-- The props read inside the animation-frame callback: `map` (`none` models a
falsy/absent map surface), the raw `location` value and the `options` object. -/
structure Props where
  map : Option Nat
  location : JsLoc
  options : CallerOptions
deriving DecidableEq, Repr

/-- The component's mutable state: the popup model, the set of live event
subscriptions `(surface id, event kind)` in subscription order, and whether
`this.portalNode` is non-null resp. still attached to a parent.
`this._mbPopup` itself is assigned in the constructor and never nulled, so it
is embedded as an always-present field (the `!this._mbPopup` half of
`_update`'s guard is identically false). -/
structure CompState where
  popup : MbPopup
  subs : List (Nat × EventKind)
  portalNode : Bool
  portalAttached : Bool
deriving DecidableEq, Repr

/-- mapbox `Evented.off(type, listener)`: removes the first matching
subscription entry, leaves the rest. -/
def offSub (subs : List (Nat × EventKind)) (t : Nat × EventKind) :
    List (Nat × EventKind) :=
  match subs with
  | [] => []
  | x :: xs => if x = t then xs else x :: offSub xs t

/-- `_removeMap`: if a map surface is bound, unsubscribe its `'move'` and
`'remove'` handlers (in that order) and null `this._mbPopup._map`. -/
def removeMapFn (s : CompState) : CompState × List Act :=
  match s.popup.map with
  | none => (s, [])
  | some m0 =>
    ({ s with
        popup := { s.popup with map := none },
        subs := offSub (offSub s.subs (m0, EventKind.move)) (m0, EventKind.removeEv) },
      [Act.unsubscribeMove m0, Act.unsubscribeRemove m0])

/-- `_setMap(map)`: a no-op when `map === this._mbPopup._map`; otherwise
`_removeMap()` first, then bind the new surface and subscribe its `'move'`
and `'remove'` handlers. -/
def setMapFn (m : Nat) (s : CompState) : CompState × List Act :=
  if s.popup.map = some m then (s, [])
  else
    let r := removeMapFn s
    ({ r.1 with
        popup := { r.1.popup with map := some m },
        subs := r.1.subs ++ [(m, EventKind.move), (m, EventKind.removeEv)] },
      r.2 ++ [Act.subscribeMove m, Act.subscribeRemove m])

/-- `_remove`: null the popup's `_container`/`_content` references and unbind
the map surface (the `if (this._mbPopup)` guard is always true, see
`CompState`); then, if `this.portalNode` is non-null and still has a parent,
remove it from its parent and null `this.portalNode`. -/
def removeFn (s : CompState) : CompState × List Act :=
  let s1 : CompState :=
    { s with popup := { s.popup with container := false, content := false } }
  let r := removeMapFn s1
  if r.1.portalNode && r.1.portalAttached then
    ({ r.1 with portalAttached := false, portalNode := false },
      r.2 ++ [Act.removeChild])
  else (r.1, r.2)

/-- The options merge
`{ ...this._mbPopup.options, offset: this._calculateOffset(), anchor: null, ...options }`:
the computed offset and the `anchor: null` reset are written first, then the
caller's entries win (so a caller-supplied `anchor` overrides the reset; the
caller's `propTypes`-declared keys do not touch `offset`/`anchor` otherwise). -/
def mergeOptions (env : PageEnv) (props : Props) (p : MbPopup) : MbPopup :=
  { p with
      offsetOpt := calculateOffset env,
      anchorOpt := props.options.anchor }

/-- `_isLocationChanged`:
`const { lng: curLng, lat: curLat } = this._mbPopup.getLngLat() || {}`,
`const [newLng, newLat] = this.props.location || []` (this array
destructuring throws on an `{lon, lat}` object), then
`curLng !== newLng || curLat !== newLat`. -/
def isLocationChanged (props : Props) (s : CompState) : Except JsErr Bool :=
  let curLng : Option Int := s.popup.lngLat.map Prod.fst
  let curLat : Option Int := s.popup.lngLat.map Prod.snd
  match arrayDestructure2 (jsOrEmptyArray props.location) with
  | Except.error e => Except.error e
  | Except.ok (newLng, newLat) =>
    Except.ok (decide (curLng ≠ newLng ∨ curLat ≠ newLat))

/-- The body of the animation-frame callback scheduled by `_update`:
destructure the props (`location = [0, 0]` only when `props.location` is
`undefined`), abort when `map` is falsy or `_container`/`_content` are null,
merge the options, `_setMap(map)`, `setLngLat` when the location changed
(`updated = true`), force `this._mbPopup._update()` when it did not, then
write the computed anchor and run the final `this._mbPopup._update()`.
An `Except.error` models an exception thrown out of the callback. -/
def syncBody (env : PageEnv) (props : Props) (s : CompState) :
    Except JsErr (CompState × List Act) :=
  let location : JsLoc :=
    match props.location with
    | JsLoc.undef => JsLoc.arr [0, 0]
    | l => l
  match props.map with
  | none => Except.ok (s, [])
  | some mp =>
    if s.popup.container && s.popup.content then
      let s1 : CompState := { s with popup := mergeOptions env props s.popup }
      let r := setMapFn mp s1
      match isLocationChanged props r.1 with
      | Except.error e => Except.error e
      | Except.ok changed =>
        if changed then
          match lngLatConvert location with
          | Except.error e => Except.error e
          | Except.ok ll =>
            Except.ok
              ({ r.1 with
                  popup := { r.1.popup with
                    lngLat := some ll,
                    anchorOpt := some (calculateAnchorPosition env) } },
                r.2 ++ [Act.setLngLat, Act.calcAnchor, Act.finalRefresh])
        else
          Except.ok
            ({ r.1 with
                popup := { r.1.popup with
                  anchorOpt := some (calculateAnchorPosition env) } },
              r.2 ++ [Act.forcedRefresh, Act.calcAnchor, Act.finalRefresh])
    else Except.ok (s, [])

/-- The browser's `requestAnimationFrame` registry: each call registers one
more callback to run before the next repaint. -/
def rafSchedule (pending : Nat) : Nat := pending + 1

/-- The `_update` method itself: its whole body is
`requestAnimationFrame(() => { … })`, so a call only grows the pending
registry and touches no component state. -/
def updateMethod (st : CompState × Nat) : CompState × Nat :=
  (st.1, rafSchedule st.2)

/-- The next animation frame: every pending callback runs, in registration
order, each executing `syncBody` against the then-current state; the second
component counts how many of them recomputed the anchor (reached
`Act.calcAnchor`). A callback that throws does not stop the later ones. -/
def runFrame (env : PageEnv) (props : Props) : Nat → CompState → CompState × Nat
  | 0, s => (s, 0)
  | n + 1, s =>
    match syncBody env props s with
    | Except.ok (s', tr) =>
      let r := runFrame env props n s'
      (r.1, (if Act.calcAnchor ∈ tr then 1 else 0) + r.2)
    | Except.error _ => runFrame env props n s

/-- The subscription-bookkeeping invariant the component maintains: the live
subscriptions are exactly the `'move'` and `'remove'` handlers of the bound
surface, in subscription order (the constructor starts with no surface and no
subscriptions). -/
def SubsInv (s : CompState) : Prop :=
  s.subs =
    match s.popup.map with
    | none => []
    | some m => [(m, EventKind.move), (m, EventKind.removeEv)]

/-- Whether a subscription entry is a `'move'` subscription. -/
def isMoveSub : Nat × EventKind → Bool
  | (_, EventKind.move) => true
  | (_, EventKind.removeEv) => false

/-- The surface ids of the live `'move'` subscriptions. -/
def moveSubs (subs : List (Nat × EventKind)) : List Nat :=
  (subs.filter isMoveSub).map Prod.fst

/-- A concrete page geometry: popup at `(10, 20)` in the map container, size
`100 × 50`, map container at `(5, 5)`, viewport `800 × 400`, no scroll. -/
def env0 : PageEnv := ⟨10, 20, 100, 50, 5, 5, 800, 400, 0, 0⟩

/-- Concrete props: map surface `1`, `location = [7, 8]`, empty options. -/
def props0 : Props := ⟨some 1, JsLoc.arr [7, 8], ⟨none, none, none, none⟩⟩

/-- A concrete mounted state: surface `1` bound with its two subscriptions,
live `_container`/`_content`, rendered coordinate `(7, 8)`. -/
def state0 : CompState :=
  ⟨⟨some 1, true, true, some (7, 8), none, (0, 0)⟩,
    [(1, EventKind.move), (1, EventKind.removeEv)], true, true⟩

/-- The state `syncBody env0 props0 state0` produces: the coordinate is
unchanged, so only the merged offset and the computed anchor are written. -/
def state0Sync : CompState :=
  ⟨⟨some 1, true, true, some (7, 8), some (calculateAnchorPosition env0),
      calculateOffset env0⟩,
    [(1, EventKind.move), (1, EventKind.removeEv)], true, true⟩

/-- Concrete props whose `location` is the `{lon, lat}` object form. -/
def propsObj : Props := ⟨some 1, JsLoc.obj 3 4, ⟨none, none, none, none⟩⟩

/-- A concrete unbound mounted state: no surface bound yet, no coordinate
rendered yet. -/
def stateFresh : CompState :=
  ⟨⟨none, true, true, none, none, (0, 0)⟩, [], true, true⟩

end DrawPopup

namespace Monitoring

/-- A JavaScript value stored in one field of the table-state record. -/
inductive JsVal where
  | undef : JsVal
  | null : JsVal
  | boolean : Bool → JsVal
  | num : Int → JsVal
  | str : String → JsVal
deriving DecidableEq, Repr

/-- JavaScript truthiness on the modelled values: `undefined`, `null`,
`false`, `0` and `""` are falsy. -/
def truthy : JsVal → Bool
  | JsVal.undef => false
  | JsVal.null => false
  | JsVal.boolean b => b
  | JsVal.num n => n ≠ 0
  | JsVal.str s => s ≠ ""

/-- JavaScript `v || undefined` (the setter's "don't store empty data"). -/
def orUndefined (v : JsVal) : JsVal :=
  if truthy v then v else JsVal.undef

/-- The four field names both helpers address under the key prefix. -/
inductive TField where
  | filterText : TField
  | pageIndex : TField
  | sortKey : TField
  | sortOrder : TField
deriving DecidableEq, Repr

/-- The object stored under `STORAGE_KEY`, observed through lodash `get`/`set`
at paths `[keyPrefix, field]`: a missing path reads as `undefined`. -/
def TableData := String → TField → JsVal

/-- lodash `get(data, [keyPrefix, field])`. -/
def lodashGet (d : TableData) (keyPrefix : String) (f : TField) : JsVal :=
  d keyPrefix f

/-- lodash `set(data, [keyPrefix, field], v)`. -/
def lodashSet (d : TableData) (keyPrefix : String) (f : TField) (v : JsVal) :
    TableData :=
  fun p' f' => if p' = keyPrefix ∧ f' = f then v else d p' f'

/-- An object every path of which reads as `undefined` — the `{}` fallback. -/
def emptyData : TableData := fun _ _ => JsVal.undef

/-- The record `{ pageIndex, filterText, sortKey, sortOrder }`. -/
structure TableRecord where
  filterText : JsVal
  pageIndex : JsVal
  sortKey : JsVal
  sortOrder : JsVal
deriving DecidableEq, Repr

/-- `tableStorageGetter(keyPrefix)(storage)`: read
`storage.get(STORAGE_KEY) || {}` (the storage is modelled by its
`STORAGE_KEY` slot; a stored object is truthy) and `get` the four fields
under the prefix. -/
def tableStorageGetter (keyPrefix : String) (storage : Option TableData) :
    TableRecord :=
  let localStorageData := storage.getD emptyData
  { filterText := lodashGet localStorageData keyPrefix TField.filterText,
    pageIndex := lodashGet localStorageData keyPrefix TField.pageIndex,
    sortKey := lodashGet localStorageData keyPrefix TField.sortKey,
    sortOrder := lodashGet localStorageData keyPrefix TField.sortOrder }

/-- `tableStorageSetter(keyPrefix)(storage, record)`: read
`storage.get(STORAGE_KEY) || {}`, `set` each field to `value || undefined`
("don't store empty data"), and write the object back under `STORAGE_KEY`. -/
def tableStorageSetter (keyPrefix : String) (storage : Option TableData)
    (r : TableRecord) : Option TableData :=
  let d0 := storage.getD emptyData
  let d1 := lodashSet d0 keyPrefix TField.filterText (orUndefined r.filterText)
  let d2 := lodashSet d1 keyPrefix TField.pageIndex (orUndefined r.pageIndex)
  let d3 := lodashSet d2 keyPrefix TField.sortKey (orUndefined r.sortKey)
  let d4 := lodashSet d3 keyPrefix TField.sortOrder (orUndefined r.sortOrder)
  some d4

end Monitoring

namespace DrawPopup

/-- C1: `_calculateAnchorPosition` pushes `"bottom"` exactly when
`bounds.y + pos.y + height > clientHeight` and `bounds.y + pos.y - height > 0`;
otherwise it pushes `"top"` exactly when
`bounds.y + pos.y + height < clientHeight` and `bounds.y + pos.y - height < 0`;
when neither condition holds no vertical tag is pushed; and the horizontal
tag `"right"`/`"left"` follows the symmetric comparisons against
`clientWidth`. -/
theorem c1_anchor_tag_conditions (g : PageEnv) :
    ("bottom" ∈ anchorComponents g ↔
      (g.boundsY + g.posY + g.height > g.clientHeight ∧
        g.boundsY + g.posY - g.height > 0))
    ∧ (¬(g.boundsY + g.posY + g.height > g.clientHeight ∧
          g.boundsY + g.posY - g.height > 0) →
        ("top" ∈ anchorComponents g ↔
          (g.boundsY + g.posY + g.height < g.clientHeight ∧
            g.boundsY + g.posY - g.height < 0)))
    ∧ (¬(g.boundsY + g.posY + g.height > g.clientHeight ∧
          g.boundsY + g.posY - g.height > 0) →
       ¬(g.boundsY + g.posY + g.height < g.clientHeight ∧
          g.boundsY + g.posY - g.height < 0) →
        "bottom" ∉ anchorComponents g ∧ "top" ∉ anchorComponents g)
    ∧ ("right" ∈ anchorComponents g ↔
        (g.boundsX + g.posX + g.width > g.clientWidth ∧
          g.boundsX + g.posX - g.width > 0))
    ∧ (¬(g.boundsX + g.posX + g.width > g.clientWidth ∧
          g.boundsX + g.posX - g.width > 0) →
        ("left" ∈ anchorComponents g ↔
          (g.boundsX + g.posX + g.width < g.clientWidth ∧
            g.boundsX + g.posX - g.width < 0)))
    ∧ (¬(g.boundsX + g.posX + g.width > g.clientWidth ∧
          g.boundsX + g.posX - g.width > 0) →
       ¬(g.boundsX + g.posX + g.width < g.clientWidth ∧
          g.boundsX + g.posX - g.width < 0) →
        "right" ∉ anchorComponents g ∧ "left" ∉ anchorComponents g) := by
  unfold anchorComponents
  split_ifs <;> refine ⟨?_, ?_, ?_, ?_, ?_, ?_⟩ <;> simp_all

/-- C2: for every geometry the anchor descriptor returned by
`_calculateAnchorPosition` is one of the nine strings obtained by joining at
most one vertical tag and at most one horizontal tag, vertical first, with a
single `"-"`. -/
theorem c2_anchor_nine_values (g : PageEnv) :
    calculateAnchorPosition g ∈
      (["", "top", "bottom", "left", "right",
        "top-left", "top-right", "bottom-left", "bottom-right"] :
        List String) := by
  unfold calculateAnchorPosition anchorComponents
  split_ifs <;> decide

end DrawPopup

namespace DrawPopup

/-- `_removeMap` touches only the bound map and the subscription list. -/
theorem removeMapFn_preserves (s : CompState) :
    (removeMapFn s).1.popup.container = s.popup.container
    ∧ (removeMapFn s).1.popup.content = s.popup.content
    ∧ (removeMapFn s).1.popup.lngLat = s.popup.lngLat
    ∧ (removeMapFn s).1.popup.anchorOpt = s.popup.anchorOpt
    ∧ (removeMapFn s).1.popup.offsetOpt = s.popup.offsetOpt
    ∧ (removeMapFn s).1.portalNode = s.portalNode
    ∧ (removeMapFn s).1.portalAttached = s.portalAttached := by
  unfold removeMapFn
  cases h : s.popup.map <;> simp

/-- `_setMap` touches only the bound map and the subscription list. -/
theorem setMapFn_preserves (m : Nat) (s : CompState) :
    (setMapFn m s).1.popup.container = s.popup.container
    ∧ (setMapFn m s).1.popup.content = s.popup.content
    ∧ (setMapFn m s).1.popup.lngLat = s.popup.lngLat
    ∧ (setMapFn m s).1.popup.anchorOpt = s.popup.anchorOpt
    ∧ (setMapFn m s).1.popup.offsetOpt = s.popup.offsetOpt := by
  unfold setMapFn
  by_cases h : s.popup.map = some m <;>
    simp [h, (removeMapFn_preserves s).1, (removeMapFn_preserves s).2.1,
      (removeMapFn_preserves s).2.2.1, (removeMapFn_preserves s).2.2.2.1,
      (removeMapFn_preserves s).2.2.2.2.1]

/-- C5: under the component's subscription invariant, `_setMap(m)` leaves
exactly the surface `m` bound with exactly one `'move'` subscription; binding
the already-bound surface is a no-op; and on a surface change the old
surface's `'move'`/`'remove'` handlers are unsubscribed before the new
surface's are subscribed (the action trace is unbind-then-bind). -/
theorem c5_setMap_single_binding (s : CompState) (m : Nat) (hI : SubsInv s) :
    (setMapFn m s).1.popup.map = some m
    ∧ SubsInv (setMapFn m s).1
    ∧ moveSubs (setMapFn m s).1.subs = [m]
    ∧ (s.popup.map = some m → setMapFn m s = (s, []))
    ∧ (setMapFn m s).2 =
        (if s.popup.map = some m then []
         else
           (match s.popup.map with
            | none => []
            | some m0 => [Act.unsubscribeMove m0, Act.unsubscribeRemove m0]) ++
            [Act.subscribeMove m, Act.subscribeRemove m]) := by
  unfold SubsInv at hI
  by_cases h : s.popup.map = some m
  · simp [setMapFn, h, SubsInv, moveSubs, hI, isMoveSub]
  · cases h0 : s.popup.map with
    | none =>
      rw [h0] at hI
      simp [setMapFn, removeMapFn, h0, hI, SubsInv, moveSubs, isMoveSub]
    | some m0 =>
      rw [h0] at hI
      rw [h0] at h
      simp [setMapFn, removeMapFn, h0, hI, h, SubsInv, moveSubs, isMoveSub,
        offSub]

/-- `_remove` leaves `_container` and `_content` null. -/
theorem removeFn_clears (s : CompState) :
    (removeFn s).1.popup.container = false
    ∧ (removeFn s).1.popup.content = false := by
  unfold removeFn
  by_cases h : ((removeMapFn
      { s with popup := { s.popup with container := false, content := false } }).1.portalNode
    && (removeMapFn
      { s with popup := { s.popup with container := false, content := false } }).1.portalAttached) <;>
    simp [h, (removeMapFn_preserves _).1, (removeMapFn_preserves _).2.1]

end DrawPopup

namespace DrawPopup

/-- C6: unmounting twice in a row is safe: starting from a live portal node,
the first `_remove` detaches it (`removeChild` appears exactly once in the
trace) and nulls `this.portalNode`; the second call changes nothing, performs
no action at all, and in particular never detaches again; after either call
no portal node is attached. (Totality of `removeFn` embeds "never throws":
both guards — `if (this._mbPopup)` and
`if (this.portalNode && this.portalNode.parentNode)` — are modelled.) -/
theorem c6_unmount_idempotent (s : CompState)
    (hn : s.portalNode = true) (ha : s.portalAttached = true) :
    (removeFn s).2.count Act.removeChild = 1
    ∧ (removeFn s).1.portalAttached = false
    ∧ (removeFn s).1.portalNode = false
    ∧ removeFn (removeFn s).1 = ((removeFn s).1, [])
    ∧ (removeFn (removeFn s).1).2.count Act.removeChild = 0 := by
  obtain ⟨⟨pm, pc, pk, pl, pa, po⟩, subs, pn, pat⟩ := s
  simp only at hn ha
  subst hn ha
  cases pm <;> simp [removeFn, removeMapFn]

/-- C6 witness: the theorem applied to a concrete mounted state. -/
theorem c6_unmount_idempotent_witness :
    (removeFn ⟨⟨some 1, true, true, some (0, 0), none, (0, 0)⟩,
        [(1, EventKind.move), (1, EventKind.removeEv)], true, true⟩).2.count
          Act.removeChild = 1
    ∧ (removeFn ⟨⟨some 1, true, true, some (0, 0), none, (0, 0)⟩,
        [(1, EventKind.move), (1, EventKind.removeEv)], true, true⟩).1.portalAttached = false
    ∧ (removeFn ⟨⟨some 1, true, true, some (0, 0), none, (0, 0)⟩,
        [(1, EventKind.move), (1, EventKind.removeEv)], true, true⟩).1.portalNode = false
    ∧ removeFn (removeFn ⟨⟨some 1, true, true, some (0, 0), none, (0, 0)⟩,
        [(1, EventKind.move), (1, EventKind.removeEv)], true, true⟩).1 =
        ((removeFn ⟨⟨some 1, true, true, some (0, 0), none, (0, 0)⟩,
          [(1, EventKind.move), (1, EventKind.removeEv)], true, true⟩).1, [])
    ∧ (removeFn (removeFn ⟨⟨some 1, true, true, some (0, 0), none, (0, 0)⟩,
        [(1, EventKind.move), (1, EventKind.removeEv)], true, true⟩).1).2.count
          Act.removeChild = 0 :=
  c6_unmount_idempotent
    ⟨⟨some 1, true, true, some (0, 0), none, (0, 0)⟩,
      [(1, EventKind.move), (1, EventKind.removeEv)], true, true⟩ rfl rfl

/-- C7: an animation-frame callback that runs after `_remove` has executed
aborts at the guard (`_container`/`_content` are null): whatever the props
and the pre-teardown state, `syncBody` returns the torn-down state unchanged
with an empty action trace — no component or popup state is mutated, even
though the scheduled callback itself was never cancelled. -/
theorem c7_post_teardown_abort (env : PageEnv) (props : Props) (s : CompState) :
    syncBody env props (removeFn s).1 = Except.ok ((removeFn s).1, []) := by
  have hc := (removeFn_clears s).1
  unfold syncBody
  cases hm : props.map with
  | none => simp
  | some mp => simp [hc]

end DrawPopup

namespace DrawPopup

/-- `_isLocationChanged` reads only the popup's rendered coordinate (and the
props). -/
theorem isLocationChanged_congr (props : Props) (s s' : CompState)
    (h : s.popup.lngLat = s'.popup.lngLat) :
    isLocationChanged props s = isLocationChanged props s' := by
  unfold isLocationChanged
  rw [h]

/-- `_setMap` emits only subscription management actions. -/
theorem setMapFn_trace_acts (m : Nat) (s : CompState) :
    Act.setLngLat ∉ (setMapFn m s).2 ∧ Act.calcAnchor ∉ (setMapFn m s).2 ∧
      Act.forcedRefresh ∉ (setMapFn m s).2 := by
  unfold setMapFn removeMapFn
  by_cases h : s.popup.map = some m
  · simp [h]
  · cases h0 : s.popup.map with
    | none => simp [h, h0]
    | some m0 =>
      rw [h0] at h
      simp only [Option.some.injEq] at h
      simp [h, h0]

/-- C4: in a synchronize cycle that passes the guard and whose target
coordinate equals the rendered one under the raw `!==` comparison
(`_isLocationChanged` returns `false`), `setLngLat` is skipped, the forced
`this._mbPopup._update()` runs before the anchor is recomputed
(`forcedRefresh` immediately precedes `calcAnchor` in the trace, and neither
occurs earlier), and the cycle still ends with the freshly computed anchor
and offset written into the popup's options. -/
theorem c4_forced_refresh (env : PageEnv) (props : Props) (s : CompState)
    (mp : Nat) (hm : props.map = some mp) (hc : s.popup.container = true)
    (hk : s.popup.content = true)
    (hunch : isLocationChanged props s = Except.ok false) :
    ∃ s' tr, syncBody env props s = Except.ok (s', tr)
      ∧ (∃ amap, tr = amap ++ [Act.forcedRefresh, Act.calcAnchor, Act.finalRefresh]
          ∧ Act.setLngLat ∉ amap ∧ Act.calcAnchor ∉ amap ∧ Act.forcedRefresh ∉ amap)
      ∧ Act.setLngLat ∉ tr
      ∧ s'.popup.anchorOpt = some (calculateAnchorPosition env)
      ∧ s'.popup.offsetOpt = calculateOffset env := by
  have hloc : isLocationChanged props
      (setMapFn mp { s with popup := mergeOptions env props s.popup }).1 =
        Except.ok false := by
    rw [isLocationChanged_congr props
      (setMapFn mp { s with popup := mergeOptions env props s.popup }).1 s
      (by rw [(setMapFn_preserves mp _).2.2.1]; rfl)]
    exact hunch
  have hsync : syncBody env props s = Except.ok
      ({ (setMapFn mp { s with popup := mergeOptions env props s.popup }).1 with
          popup := { (setMapFn mp
              { s with popup := mergeOptions env props s.popup }).1.popup with
            anchorOpt := some (calculateAnchorPosition env) } },
        (setMapFn mp { s with popup := mergeOptions env props s.popup }).2 ++
          [Act.forcedRefresh, Act.calcAnchor, Act.finalRefresh]) := by
    unfold syncBody
    rw [hm]
    simp only [hc, hk, Bool.and_self, if_true, hloc, Bool.false_eq_true, if_false]
  refine ⟨_, _, hsync,
    ⟨(setMapFn mp { s with popup := mergeOptions env props s.popup }).2, rfl,
      (setMapFn_trace_acts mp _).1, (setMapFn_trace_acts mp _).2.1,
      (setMapFn_trace_acts mp _).2.2⟩, ?_, rfl, ?_⟩
  · simp [(setMapFn_trace_acts mp _).1]
  · show (setMapFn mp { s with popup := mergeOptions env props s.popup }).1.popup.offsetOpt
      = calculateOffset env
    rw [(setMapFn_preserves mp _).2.2.2.2]
    rfl

/-- C4 witness: the theorem at the concrete geometry `env0`, props `props0`
and state `state0`, whose rendered coordinate `(7, 8)` equals
`location = [7, 8]`. -/
theorem c4_forced_refresh_witness :
    ∃ s' tr, syncBody env0 props0 state0 = Except.ok (s', tr)
      ∧ (∃ amap, tr = amap ++ [Act.forcedRefresh, Act.calcAnchor, Act.finalRefresh]
          ∧ Act.setLngLat ∉ amap ∧ Act.calcAnchor ∉ amap ∧ Act.forcedRefresh ∉ amap)
      ∧ Act.setLngLat ∉ tr
      ∧ s'.popup.anchorOpt = some (calculateAnchorPosition env0)
      ∧ s'.popup.offsetOpt = calculateOffset env0 :=
  c4_forced_refresh env0 props0 state0 1 rfl rfl rfl rfl

/-- C9: in every synchronize cycle that passes the initial guard and runs to
completion, the caller's `anchor` entry survives the
`{ …, anchor: null, …options }` merge (it overrides the reset), yet the state
the cycle ends in carries exactly the anchor `_calculateAnchorPosition` just
computed — the caller's value is unconditionally overwritten before the final
refresh. -/
theorem c9_anchor_equals_computed (env : PageEnv) (props : Props)
    (s s' : CompState) (tr : List Act) (mp : Nat)
    (hm : props.map = some mp) (hc : s.popup.container = true)
    (hk : s.popup.content = true)
    (h : syncBody env props s = Except.ok (s', tr)) :
    (mergeOptions env props s.popup).anchorOpt = props.options.anchor
    ∧ s'.popup.anchorOpt = some (calculateAnchorPosition env) := by
  refine ⟨rfl, ?_⟩
  unfold syncBody at h
  rw [hm] at h
  simp only [hc, hk, Bool.and_self, if_true] at h
  cases hch : isLocationChanged props
      (setMapFn mp { s with popup := mergeOptions env props s.popup }).1 with
  | error e => rw [hch] at h; exact absurd h (by simp)
  | ok changed =>
    rw [hch] at h
    cases changed with
    | false =>
      simp only [Bool.false_eq_true, if_false, Except.ok.injEq, Prod.mk.injEq] at h
      rw [← h.1]
    | true =>
      simp only [if_true] at h
      cases hcv : lngLatConvert
          (match props.location with
            | JsLoc.undef => JsLoc.arr [0, 0]
            | l => l) with
      | error e => rw [hcv] at h; exact absurd h (by simp)
      | ok ll =>
        rw [hcv] at h
        simp only [Except.ok.injEq, Prod.mk.injEq] at h
        rw [← h.1]

/-- C9 witness: the theorem at the concrete cycle
`syncBody env0 props0 state0 = ok (state0Sync, trace)`. -/
theorem c9_anchor_equals_computed_witness :
    (mergeOptions env0 props0 state0.popup).anchorOpt = props0.options.anchor
    ∧ state0Sync.popup.anchorOpt = some (calculateAnchorPosition env0) :=
  c9_anchor_equals_computed env0 props0 state0 state0Sync
    [Act.forcedRefresh, Act.calcAnchor, Act.finalRefresh] 1 rfl rfl rfl rfl

end DrawPopup

namespace DrawPopup

/-- C8 (evaluating the code at the failing input): with a mounted popup and
the `{lon, lat}` object form of `location` — a form the component's own
`propTypes` admit — the synchronize cycle throws a `TypeError` instead of
falling back to a default coordinate: `_isLocationChanged` array-destructures
`this.props.location || []`, and an `{lon, lat}` object is truthy but not
iterable. -/
theorem c8_object_location_throws :
    syncBody env0 propsObj state0 = Except.error JsErr.typeError := rfl

/-- Each `_update` call adds one pending callback; the component state is
untouched until the frame fires. -/
theorem updateMethod_iterate (s : CompState) (p n : Nat) :
    (updateMethod^[n] (s, p)).2 = p + n := by
  induction n generalizing p with
  | zero => rfl
  | succ n ih =>
    rw [Function.iterate_succ_apply]
    show (updateMethod^[n] (s, p + 1)).2 = p + (n + 1)
    rw [ih (p + 1)]
    omega

/-- With the guard satisfied and a two-element array `location`, a callback
always completes: it returns `ok`, its trace recomputes the anchor, and the
`_container`/`_content` references stay live. -/
theorem syncBody_arr2_runs (env : PageEnv) (props : Props) (s : CompState)
    (mp : Nat) (a b : Int) (hm : props.map = some mp)
    (hc : s.popup.container = true) (hk : s.popup.content = true)
    (hl : props.location = JsLoc.arr [a, b]) :
    ∃ s' tr, syncBody env props s = Except.ok (s', tr)
      ∧ Act.calcAnchor ∈ tr
      ∧ s'.popup.container = true ∧ s'.popup.content = true := by
  obtain ⟨c, hloc⟩ : ∃ c, isLocationChanged props
      (setMapFn mp { s with popup := mergeOptions env props s.popup }).1 =
        Except.ok c := by
    unfold isLocationChanged
    rw [hl]
    exact ⟨_, rfl⟩
  have hcont : (setMapFn mp
      { s with popup := mergeOptions env props s.popup }).1.popup.container = true := by
    rw [(setMapFn_preserves mp _).1]; exact hc
  have hcont2 : (setMapFn mp
      { s with popup := mergeOptions env props s.popup }).1.popup.content = true := by
    rw [(setMapFn_preserves mp _).2.1]; exact hk
  have hconv : lngLatConvert (JsLoc.arr [a, b]) = Except.ok (a, b) := rfl
  unfold syncBody
  rw [hm, hl]
  simp only [hc, hk, Bool.and_self, if_true, hloc]
  cases c with
  | false =>
    simp only [Bool.false_eq_true, if_false]
    exact ⟨_, _, rfl, by simp, hcont, hcont2⟩
  | true =>
    simp only [if_true, hconv]
    exact ⟨_, _, rfl, by simp, hcont, hcont2⟩

/-- Under the same conditions a frame with `n` pending callbacks performs `n`
anchor recomputations. -/
theorem runFrame_count (env : PageEnv) (props : Props) (mp : Nat) (a b : Int)
    (hm : props.map = some mp) (hl : props.location = JsLoc.arr [a, b]) :
    ∀ n (s : CompState), s.popup.container = true → s.popup.content = true →
      (runFrame env props n s).2 = n := by
  intro n
  induction n with
  | zero => intro s _ _; rfl
  | succ n ih =>
    intro s hc hk
    obtain ⟨s', tr, hsync, hmem, hc', hk'⟩ :=
      syncBody_arr2_runs env props s mp a b hm hc hk hl
    unfold runFrame
    rw [hsync]
    simp only
    rw [if_pos hmem, ih s' hc' hk']
    omega

/-- C3 (amended): `synchronize` triggers are deferred but not coalesced —
every `_update` call registers its own `requestAnimationFrame` callback, so a
burst of `n` trigger calls before the frame fires leaves `n` pending
callbacks, and that frame then runs `n` geometry recomputations, not one. -/
theorem c3_no_coalescing (env : PageEnv) (props : Props) (s : CompState)
    (n : Nat) (mp : Nat) (a b : Int)
    (hm : props.map = some mp) (hc : s.popup.container = true)
    (hk : s.popup.content = true) (hl : props.location = JsLoc.arr [a, b]) :
    (updateMethod^[n] (s, 0)).2 = n
    ∧ (runFrame env props n s).2 = n := by
  refine ⟨?_, runFrame_count env props mp a b hm hl n s hc hk⟩
  rw [updateMethod_iterate s 0 n]
  omega

/-- C3 witness: the amended theorem at the concrete burst of two triggers on
the freshly mounted state. -/
theorem c3_no_coalescing_witness :
    (updateMethod^[2] (stateFresh, 0)).2 = 2
    ∧ (runFrame env0 props0 2 stateFresh).2 = 2 :=
  c3_no_coalescing env0 props0 stateFresh 2 1 7 8 rfl rfl rfl rfl

/-- C3 counterexample: a burst of two triggers before the frame leaves two
pending recomputations scheduled, and the frame runs two geometry
recomputations — refuting "at most one pending recomputation is scheduled and
at most one geometry recomputation runs in that frame". -/
theorem c3_two_triggers_two_recomputations :
    (updateMethod (updateMethod (stateFresh, 0))).2 = 2
    ∧ ¬((updateMethod (updateMethod (stateFresh, 0))).2 ≤ 1)
    ∧ (runFrame env0 props0 2 stateFresh).2 = 2
    ∧ ¬((runFrame env0 props0 2 stateFresh).2 ≤ 1) := by
  refine ⟨rfl, by decide, ?_, ?_⟩
  · decide
  · decide

end DrawPopup

namespace Monitoring

/-- C10: writing a record through `tableStorageSetter` and reading it back
through `tableStorageGetter` with the same key prefix returns the four
written values, except that a falsy written value (empty string, `0`, `false`,
`null`, `undefined`) comes back as `undefined` — the setter stores
`value || undefined` for each field. -/
theorem c10_storage_roundtrip (keyPrefix : String)
    (storage : Option TableData) (r : TableRecord) :
    tableStorageGetter keyPrefix (tableStorageSetter keyPrefix storage r) =
      { filterText := if truthy r.filterText then r.filterText else JsVal.undef,
        pageIndex := if truthy r.pageIndex then r.pageIndex else JsVal.undef,
        sortKey := if truthy r.sortKey then r.sortKey else JsVal.undef,
        sortOrder := if truthy r.sortOrder then r.sortOrder else JsVal.undef } := by
  unfold tableStorageGetter tableStorageSetter lodashGet lodashSet orUndefined
  simp

end Monitoring

namespace DrawPopup

/-- C5 witness: the theorem at the concrete swap from the bound surface `1`
to surface `2`. -/
theorem c5_setMap_single_binding_witness :
    (setMapFn 2 state0).1.popup.map = some 2
    ∧ SubsInv (setMapFn 2 state0).1
    ∧ moveSubs (setMapFn 2 state0).1.subs = [2]
    ∧ (state0.popup.map = some 2 → setMapFn 2 state0 = (state0, []))
    ∧ (setMapFn 2 state0).2 =
        (if state0.popup.map = some 2 then []
         else
           (match state0.popup.map with
            | none => []
            | some m0 => [Act.unsubscribeMove m0, Act.unsubscribeRemove m0]) ++
            [Act.subscribeMove 2, Act.subscribeRemove 2]) :=
  c5_setMap_single_binding state0 2 rfl

end DrawPopup
